import Mathlib

/-!
Verification of the ProofSnap browser extension core against its design
specification.  The definitions below are shallow embeddings of the
TypeScript source:

* `IndexedDBService` (src/services/IndexedDBService.ts) — the Asset Store,
  modelled as an association list of `Asset` records keyed by `id`, with the
  IndexedDB `put`/`get`/`delete` semantics made explicit.
* `ApiClient` (HTTP client) — header construction, request dispatch and the
  error classification performed in `request`.
* `NumbersApiManager.initialize` (src/options/options.tsx) — session
  restoration and token-validation outcome handling.
* the offscreen watermark composer (`addWatermark`, `drawTimestamp`,
  `drawLogo`) — modelled as a deterministic trace of canvas drawing
  commands, with text measurement, date parsing and image loading supplied
  by an explicit environment.
-/

namespace ProofSnap

/-! ## Asset Store (IndexedDBService) -/

/-- `'image' | 'video'` from the `Asset` interface. -/
inductive AssetType where
  | image
  | video
  deriving DecidableEq, Repr

/-- `'draft' | 'uploading' | 'uploaded' | 'failed'` from the `Asset` interface. -/
inductive AssetStatus where
  | draft
  | uploading
  | uploaded
  | failed
  deriving DecidableEq, Repr

/-- `gpsLocation` payload of an `Asset`.  The numeric coordinates are carried
as rationals; the store never computes with them. -/
structure GpsLocation where
  latitude : ℚ
  longitude : ℚ
  accuracy : ℚ
  timestamp : ℤ
  deriving DecidableEq, Repr

/-- `sourceWebsite` payload of an `Asset`. -/
structure SourceWebsite where
  url : String
  title : String
  deriving DecidableEq, Repr

/-- The open `metadata` mapping of an `Asset` (string-keyed bag of auxiliary
fields).  The object spread in `updateAsset` is shallow, so the store only
ever replaces this value wholesale. -/
abbrev Metadata := List (String × String)

/-- The `Asset` record stored in IndexedDB (IndexedDBService.ts, interface
`Asset`). -/
structure Asset where
  id : String
  uri : String
  type : AssetType
  mimeType : String
  createdAt : ℤ
  status : AssetStatus
  metadata : Option Metadata
  gpsLocation : Option GpsLocation
  sourceWebsite : Option SourceWebsite
  deriving DecidableEq, Repr

/-- `Partial<Asset>`: the `updates` argument of `updateAsset`.  A field that
is `none` is absent from the partial object and is left untouched by the
merge; `some v` overwrites the field with `v`. -/
structure AssetUpdates where
  id : Option String := none
  uri : Option String := none
  type : Option AssetType := none
  mimeType : Option String := none
  createdAt : Option ℤ := none
  status : Option AssetStatus := none
  metadata : Option (Option Metadata) := none
  gpsLocation : Option (Option GpsLocation) := none
  sourceWebsite : Option (Option SourceWebsite) := none
  deriving DecidableEq, Repr

/-- The empty partial update (an `updates` object with no fields). -/
def emptyUpdates : AssetUpdates := {}

/-- The IndexedDB object store `assets`, keyed by `id` (`keyPath: 'id'`). -/
abbrev Store := List Asset

/-- `getAsset(id)`: `store.get(id)` resolves with the record stored under the
key, or `undefined` (here `none`) when no record has that key. -/
def getAsset (s : Store) (id : String) : Option Asset :=
  s.find? (fun a => a.id == id)

/-- `setAsset(asset)`: `store.put(asset)` stores the record under
`asset.id`, replacing any existing record with that key (upsert); it never
rejects because a record already exists. -/
def setAsset (s : Store) (a : Asset) : Store :=
  if s.any (fun b => b.id == a.id) then
    s.map (fun b => if b.id == a.id then a else b)
  else
    s ++ [a]

/-- The merge `{ ...asset, ...updates }` in `updateAsset`: a shallow object
spread, so each named field of `updates` wins and every other field keeps the
stored value. -/
def mergeAsset (a : Asset) (u : AssetUpdates) : Asset where
  id := u.id.getD a.id
  uri := u.uri.getD a.uri
  type := u.type.getD a.type
  mimeType := u.mimeType.getD a.mimeType
  createdAt := u.createdAt.getD a.createdAt
  status := u.status.getD a.status
  metadata := u.metadata.getD a.metadata
  gpsLocation := u.gpsLocation.getD a.gpsLocation
  sourceWebsite := u.sourceWebsite.getD a.sourceWebsite

/-- `updateAsset(id, updates)`: reads the record, throws (here `.error`) when
it is absent, and otherwise persists the shallow merge via `setAsset`. -/
def updateAsset (s : Store) (id : String) (u : AssetUpdates) : Except String Store :=
  match getAsset s id with
  | none => .error ("Failed to update asset: Asset with ID " ++ id ++ " not found in IndexedDB")
  | some a => .ok (setAsset s (mergeAsset a u))

/-- `deleteAsset(id)`: `store.delete(id)` removes any record stored under the
key.  An IndexedDB delete request fires `onsuccess` even when no record has
the key, so the operation is total (never an error). -/
def deleteAsset (s : Store) (id : String) : Store :=
  s.filter (fun a => !(a.id == id))

/-! ## ApiClient (HTTP client) -/

/-- Substring test on character lists, modelling JavaScript
`String.prototype.includes`. -/
def isPrefixL : List Char → List Char → Bool
  | [], _ => true
  | _ :: _, [] => false
  | p :: ps, c :: cs => p == c && isPrefixL ps cs

/-- `containsSubL s pat` is true when `pat` occurs contiguously in `s`. -/
def containsSubL : List Char → List Char → Bool
  | [], pat => pat.isEmpty
  | s@(_ :: rest), pat => isPrefixL pat s || containsSubL rest pat

/-- `s.includes(pat)` on strings, used by the error-message classification in
`NumbersApiManager.initialize`. -/
def containsSub (s pat : String) : Bool :=
  containsSubL s.data pat.data

/-- The body shape `{ type, message, details }` used inside API error
payloads (ApiClient.ts error handling). -/
structure ErrBody where
  type : String
  message : String
  details : String
  deriving DecidableEq, Repr

/-- The JSON error payload attached to an `ApiError`: an optional `error`
object plus an optional `status_code`. -/
structure ErrData where
  error : Option ErrBody
  status_code : Option Nat
  deriving DecidableEq, Repr

/-- The `ApiError` class: message, HTTP status code, optional payload. -/
structure ApiError where
  message : String
  statusCode : Nat
  data : Option ErrData
  deriving DecidableEq, Repr

/-- One outcome of the `fetch` call inside `ApiClient.request`:
a response with an HTTP status (whose error body may or may not parse as
JSON), an abort fired by the bounded timeout, or any other transport
failure (whose thrown error may or may not carry a message). -/
inductive FetchResult where
  | resp (status : Nat) (statusText : String) (errJson : Option ErrData)
  | abort
  | netFail (message : Option String)
  deriving DecidableEq, Repr

/-- `response.ok`: status in the inclusive range 200–299. -/
def respOk (status : Nat) : Bool :=
  200 ≤ status && status < 300

/-- The error path of `ApiClient.request`: a non-ok response throws an
`ApiError` carrying the HTTP status (with a synthesized `http_error` body
when the response body fails to parse); an `AbortError` from the timeout
throws `ApiError('Request timeout', 408)`; any other `fetch` failure throws
an `ApiError` with `statusCode` 0 and a `network_error` body.  The success
payload is irrelevant to the claims and is collapsed to `Unit`. -/
def request (f : FetchResult) : Except ApiError Unit :=
  match f with
  | .resp status statusText errJson =>
    if respOk status then .ok ()
    else
      let errorData : ErrData :=
        match errJson with
        | some d => d
        | none =>
          ⟨some ⟨"http_error", "HTTP " ++ toString status ++ ": " ++ statusText,
            "Failed to parse error response"⟩, some status⟩
      let msg : String :=
        match errorData.error with
        | some e => if e.message = "" then "Request failed" else e.message
        | none => "Request failed"
      .error ⟨msg, status, some errorData⟩
  | .abort => .error ⟨"Request timeout", 408, none⟩
  | .netFail m =>
    let msg : String :=
      match m with
      | some s => if s = "" then "Network error occurred" else s
      | none => "Network error occurred"
    let inner : String :=
      match m with
      | some s => if s = "" then "Unknown error" else s
      | none => "Unknown error"
    .error ⟨msg, 0, some ⟨some ⟨"network_error", inner, ""⟩, none⟩⟩

/-- Insert-or-replace of a key in a header list, modelling assignment of a
property on a JavaScript object. -/
def setHeader (hs : List (String × String)) (k v : String) : List (String × String) :=
  if hs.any (fun p => p.1 == k) then
    hs.map (fun p => if p.1 == k then (k, v) else p)
  else
    hs ++ [(k, v)]

/-- Property read on a header object. -/
def lookupHeader (hs : List (String × String)) (k : String) : Option String :=
  (hs.find? (fun p => p.1 == k)).map (fun p => p.2)

/-- `ApiClient.buildAuthHeaders`: starts from
`{ 'Content-Type': 'application/json' }`, spreads the custom headers over
it, and adds `Authorization: token <value>` only when a token is present.
When `authToken` is absent the header is simply omitted — there is no
check and no thrown error. -/
def buildAuthHeaders (tok : Option String) (custom : List (String × String)) :
    List (String × String) :=
  let base := custom.foldl (fun hs kv => setHeader hs kv.1 kv.2)
    [("Content-Type", "application/json")]
  match tok with
  | some t => setHeader base "Authorization" ("token " ++ t)
  | none => base

/-- The request that `ApiClient.requestWithAuth` hands to `fetch`.  Only the
headers matter to the claims. -/
structure SentRequest where
  headers : List (String × String)
  deriving DecidableEq, Repr

/-- `ApiClient.requestWithAuth` builds the auth headers and unconditionally
delegates to `request`, which always dispatches `fetch`: `some r` means a
request with headers `r.headers` is sent to the remote service.  A
fail-locally behaviour would be `none`; no code path produces it. -/
def requestWithAuthSends (tok : Option String) (custom : List (String × String)) :
    Option SentRequest :=
  some ⟨buildAuthHeaders tok custom⟩

/-! ## Session Manager (NumbersApiManager.initialize) -/

/-- The persisted credential record written by `storageService.setAuth`. -/
structure StoredAuth where
  token : String
  email : String
  username : String
  deriving DecidableEq, Repr

/-- The credential-relevant state touched by `initialize`: the persisted
credential and the in-memory token installed on the `ApiClient`. -/
structure SessionState where
  storedAuth : Option StoredAuth
  clientToken : Option String
  deriving DecidableEq, Repr

/-- Outcome of the validation call `auth.getCurrentUser()` inside
`initialize`: a fresh profile, an `ApiError` (which carries a numeric
`statusCode`), or any other thrown error (whose `statusCode` is
`undefined`). -/
inductive ValidationOutcome where
  | ok (email : String) (username : String)
  | apiErr (message : String) (statusCode : Nat)
  | otherErr (message : String)
  deriving DecidableEq, Repr

/-- The network-error test in `initialize`:
`errorMessage.includes('network') || errorMessage.includes('timeout') ||
errorMessage.includes('connection') || statusCode === 0`. -/
def isNetworkError (msg : String) (statusCode : Option Nat) : Bool :=
  containsSub msg "network" || containsSub msg "timeout" ||
    containsSub msg "connection" || statusCode == some 0

/-- The server-error test in `initialize`:
`typeof statusCode === 'number' && statusCode >= 500 && statusCode < 600`. -/
def isServerError (statusCode : Option Nat) : Bool :=
  match statusCode with
  | some c => 500 ≤ c && c < 600
  | none => false

/-- `NumbersApiManager.initialize` (options.tsx): when no credential is
stored, do nothing.  Otherwise install the stored token on the client and
validate it by fetching the profile.  On success, overwrite the stored
profile snapshot with fresh data.  On a network or server error, keep both
the token and the cached profile (the state with the token installed).  On
any other error, clear the credential entirely (`clearAuth` empties both
the client token and the persisted record). -/
def initializeSession (st : SessionState) (outcome : ValidationOutcome) : SessionState :=
  match st.storedAuth with
  | none => st
  | some auth =>
    let st1 : SessionState := { st with clientToken := some auth.token }
    match outcome with
    | .ok email username =>
      { st1 with storedAuth := some ⟨auth.token, email, username⟩ }
    | .apiErr msg code =>
      if isNetworkError msg (some code) || isServerError (some code) then st1
      else ⟨none, none⟩
    | .otherErr msg =>
      if isNetworkError msg none || isServerError none then st1
      else ⟨none, none⟩

/-! ## Image Composer (offscreen watermark document) -/

/-- `'small' | 'medium' | 'large'` timestamp size tier. -/
inductive TimestampSize where
  | small
  | medium
  | large
  deriving DecidableEq, Repr

/-- `sizeMultipliers = { small: 1.5, medium: 2, large: 2.5 }`. -/
def sizeMultiplier : TimestampSize → ℚ
  | .small => 3 / 2
  | .medium => 2
  | .large => 5 / 2

/-- The fields of a parsed `Date` consumed by `formatTime` / `formatDate`:
`getHours`, `getMinutes`, `getDate`, `getMonth` (zero-based), `getFullYear`
and the short en-US weekday name. -/
structure DateParts where
  hours : Nat
  minutes : Nat
  dayOfMonth : Nat
  monthIndex : Nat
  year : Nat
  weekdayShort : String
  deriving DecidableEq, Repr

/-- `String(n).padStart(2, '0')` for the two-digit date fields. -/
def pad2 (n : Nat) : String :=
  if n < 10 then "0" ++ toString n else toString n

/-- `formatTime`: `HH:MM`. -/
def formatTime (d : DateParts) : String :=
  pad2 d.hours ++ ":" ++ pad2 d.minutes

/-- `formatDate`: `DD/MM/YYYY Day` (month is `getMonth() + 1`). -/
def formatDate (d : DateParts) : String :=
  pad2 d.dayOfMonth ++ "/" ++ pad2 (d.monthIndex + 1) ++ "/" ++ toString d.year ++
    " " ++ d.weekdayShort

/-- The CSS font string `"<weight> <size>px system-ui, -apple-system,
sans-serif"` assigned to `ctx.font`. -/
def fontOf (weight : String) (size : ℚ) : String :=
  weight ++ " " ++ toString size ++ "px system-ui, -apple-system, sans-serif"

/-- One drawing command issued against the canvas 2D context, recording the
geometry and the relevant context state at the moment of the call:
the base image draw, the rounded timestamp box fill and stroke (both drawn
while the soft shadow is active), a text draw, and the logo draw (recording
the `globalAlpha` in force). -/
inductive DrawCmd where
  | drawBase (dataUrl : String) (alpha : ℚ)
  | boxFill (x y w h radius : ℚ) (fill shadowColor : String) (shadowBlur shadowOffsetY : ℚ)
  | boxStroke (x y w h radius : ℚ) (stroke : String) (lineWidth : ℚ) (shadowColor : String)
      (shadowBlur shadowOffsetY : ℚ)
  | text (s : String) (x y : ℚ) (font fill align baseline : String)
  | logo (x y w h alpha : ℚ)
  deriving DecidableEq, Repr

/-- The canvas 2D context state, together with the canvas bitmap dimensions
and the accumulated trace of drawing commands. -/
structure Ctx where
  canvasWidth : Nat
  canvasHeight : Nat
  font : String
  fillStyle : String
  strokeStyle : String
  lineWidth : ℚ
  textAlign : String
  textBaseline : String
  shadowColor : String
  shadowBlur : ℚ
  shadowOffsetY : ℚ
  globalAlpha : ℚ
  trace : List DrawCmd
  deriving DecidableEq, Repr

/-- The context state after `canvas.width = w; canvas.height = h`: per the
HTML canvas specification, assigning the bitmap dimensions resets the 2D
rendering context to its default drawing state (and clears the bitmap), so
nothing of the previous context state survives into a composition run. -/
def resetCtx (w h : Nat) : Ctx where
  canvasWidth := w
  canvasHeight := h
  font := "10px sans-serif"
  fillStyle := "#000000"
  strokeStyle := "#000000"
  lineWidth := 1
  textAlign := "start"
  textBaseline := "alphabetic"
  shadowColor := "rgba(0, 0, 0, 0)"
  shadowBlur := 0
  shadowOffsetY := 0
  globalAlpha := 1
  trace := []

/-- The deterministic environment a composition run executes in: the text
measurement of the rendering surface (a function of the active font and the
measured string), the `new Date(...)` parsing plus en-US weekday lookup,
and the success of the two image loads (the captured image and the bundled
logo asset). -/
structure Env where
  measure : String → String → ℚ
  parseDate : String → DateParts
  mainImageOk : Bool
  logoOk : Bool

/-- The `ADD_WATERMARK` message payload handed to `addWatermark`. -/
structure Payload where
  dataUrl : String
  timestamp : String
  width : Nat
  height : Nat
  timestampSize : Option TimestampSize
  includeTimestamp : Option Bool
  deriving Repr

/-- `drawTimestamp`: parses the timestamp, derives the time and date lines,
computes the tiered font sizes from the canvas height, measures both lines
under their fonts, sizes the backing box from the measurements plus fixed
padding, and draws the shadowed rounded box, its border, and the two text
lines at fixed top-left position (20, 60). -/
def drawTimestamp (env : Env) (ctx : Ctx) (timestampStr : String) (size : TimestampSize) :
    Ctx :=
  let d := env.parseDate timestampStr
  let timeText := formatTime d
  let dateText := formatDate d
  let m := sizeMultiplier size
  let baseFontSize : Nat := max 20 (ctx.canvasHeight / 35)
  let timeFontSize : ℚ := (baseFontSize : ℚ) * m
  let dateFontSize : ℚ := (baseFontSize : ℚ) * (m / 2)
  let timeFont := fontOf "700" timeFontSize
  let dateFont := fontOf "400" dateFontSize
  let timeWidth := env.measure timeFont timeText
  let dateWidth := env.measure dateFont dateText
  let padding : ℚ := 16
  let boxWidth := max timeWidth dateWidth + padding * 2
  let boxHeight := timeFontSize + dateFontSize + padding * 2 + 8
  let px : ℚ := 20
  let py : ℚ := 60
  { ctx with
    font := dateFont
    fillStyle := "rgba(26, 26, 26, 0.9)"
    strokeStyle := "rgba(255, 255, 255, 0.4)"
    lineWidth := 1
    textAlign := "left"
    textBaseline := "top"
    shadowColor := "transparent"
    shadowBlur := 0
    shadowOffsetY := 0
    trace := ctx.trace ++
      [.boxFill px py boxWidth boxHeight 8 "rgba(255, 255, 255, 0.6)" "rgba(0, 0, 0, 0.1)" 8 2,
       .boxStroke px py boxWidth boxHeight 8 "rgba(255, 255, 255, 0.4)" 1 "rgba(0, 0, 0, 0.1)" 8 2,
       .text timeText (px + padding) (py + padding) timeFont "#1a1a1a" "left" "top",
       .text dateText (px + padding) (py + padding + timeFontSize + 4) dateFont
         "rgba(26, 26, 26, 0.9)" "left" "top"] }

/-- `drawLogo`: loads the bundled logo; on failure the error is caught,
only a warning is logged and nothing is drawn.  On success the logo is
drawn bottom-right with `logoWidth = Math.max(100, Math.floor(w / 12))`,
`logoHeight = logoWidth * (157 / 828)`, inset 20px from the right and
bottom edges, at `globalAlpha = 0.7` (restored to 1.0 afterwards). -/
def drawLogo (env : Env) (ctx : Ctx) : Ctx :=
  if env.logoOk then
    let logoWidth : Nat := max 100 (ctx.canvasWidth / 12)
    let logoHeight : ℚ := (logoWidth : ℚ) * (157 / 828)
    let logoX : ℚ := (ctx.canvasWidth : ℚ) - (logoWidth : ℚ) - 20
    let logoY : ℚ := (ctx.canvasHeight : ℚ) - logoHeight - 20
    { ctx with
      globalAlpha := 1
      trace := ctx.trace ++ [.logo logoX logoY (logoWidth : ℚ) logoHeight (7 / 10)] }
  else ctx

/-- `addWatermark` (offscreen document): acquire the 2D context of the
shared canvas element (`none` models `getContext` returning null, which
throws), load the captured image (failure rejects the whole composition),
assign the canvas dimensions (resetting the context state), draw the base
image, draw the timestamp block unless `includeTimestamp === false`
(the size defaults to `'medium'`), and finally draw the logo. -/
def addWatermark (env : Env) (p : Payload) (ctx0 : Option Ctx) : Except String Ctx :=
  match ctx0 with
  | none => .error "Failed to get canvas context"
  | some _ =>
    if env.mainImageOk then
      let c0 := resetCtx p.width p.height
      let c1 := { c0 with trace := c0.trace ++ [.drawBase p.dataUrl c0.globalAlpha] }
      let c2 :=
        if p.includeTimestamp = some false then c1
        else drawTimestamp env c1 p.timestamp (p.timestampSize.getD .medium)
      .ok (drawLogo env c2)
    else .error "Failed to load image"

/-- The drawing trace of a composition result (`[]` for a failed run). -/
def traceOf : Except String Ctx → List DrawCmd
  | .ok c => c.trace
  | .error _ => []

/-- Whether a trace contains a logo draw. -/
def hasLogoCmd (t : List DrawCmd) : Bool :=
  t.any fun c =>
    match c with
    | .logo _ _ _ _ _ => true
    | _ => false

/-- Whether a trace contains a text draw (the timestamp lines are the only
text the composer draws). -/
def hasTextCmd (t : List DrawCmd) : Bool :=
  t.any fun c =>
    match c with
    | .text _ _ _ _ _ _ _ => true
    | _ => false

/-- Projection of the HTTP status of a failed request. -/
def errorStatusOf : Except ApiError Unit → Option Nat
  | .error e => some e.statusCode
  | .ok _ => none

/-- Projection of the machine-readable error `type` carried in the body of
a failed request. -/
def errorNetTypeOf : Except ApiError Unit → Option String
  | .error e => (e.data.bind (fun d => d.error)).map (fun b => b.type)
  | .ok _ => none

/-! ## Sample store data used by witnesses -/

/-- A concrete draft asset used by the store witnesses. -/
def sampleAsset : Asset where
  id := "asset-1"
  uri := "data:image/png;base64,AAAA"
  type := .image
  mimeType := "image/png"
  createdAt := 1700000000
  status := .draft
  metadata := some [("width", "1200"), ("height", "800")]
  gpsLocation := none
  sourceWebsite := some ⟨"https://example.com", "Example"⟩

/-- A second concrete asset sharing no id with `sampleAsset`. -/
def sampleAssetB : Asset where
  id := "asset-2"
  uri := "data:image/png;base64,BBBB"
  type := .image
  mimeType := "image/png"
  createdAt := 1700000001
  status := .failed
  metadata := none
  gpsLocation := none
  sourceWebsite := none

/-- A replacement record bearing the same id as `sampleAsset`. -/
def sampleAssetReplacement : Asset :=
  { sampleAsset with status := .uploading, uri := "data:image/png;base64,CCCC" }

/-- A concrete partial update touching only `status` and `metadata`. -/
def sampleUpdates : AssetUpdates where
  status := some .uploading
  metadata := some (some [("uploadProgress", "0")])

/-! ## Store lemmas -/

/-- Unfolding step for `List.find?` on a cons cell whose head satisfies the
predicate. -/
theorem find?_cons_true {α : Type} (p : α → Bool) (x : α) (l : List α) (h : p x = true) :
    (x :: l).find? p = some x := by
  conv_lhs => unfold List.find?
  rw [h]

/-- Unfolding step for `List.find?` on a cons cell whose head fails the
predicate. -/
theorem find?_cons_false {α : Type} (p : α → Bool) (x : α) (l : List α) (h : p x = false) :
    (x :: l).find? p = l.find? p := by
  conv_lhs => unfold List.find?
  rw [h]

/-- Replacing by id in a list that contains the id is found as the
replacement by a subsequent keyed lookup. -/
theorem find?_map_replace (s : List Asset) (a : Asset)
    (h : (s.find? (fun b => b.id == a.id)).isSome = true) :
    (s.map (fun b => if b.id == a.id then a else b)).find? (fun b => b.id == a.id) = some a := by
  induction s with
  | nil => simp at h
  | cons x t ih =>
    cases hx : x.id == a.id with
    | true =>
      rw [List.map_cons, if_pos hx,
        find?_cons_true (fun b => b.id == a.id) a _ (beq_self_eq_true a.id)]
    | false =>
      rw [find?_cons_false (fun b => b.id == a.id) x t hx] at h
      rw [List.map_cons, if_neg (by simp [hx]),
        find?_cons_false (fun b => b.id == a.id) x _ hx]
      exact ih h

/-- Filtering twice with the same predicate equals filtering once. -/
theorem filter_idem (p : Asset → Bool) (s : List Asset) :
    (s.filter p).filter p = s.filter p := by
  induction s with
  | nil => rfl
  | cons a t ih =>
    by_cases h : p a = true
    · simp [List.filter, h, ih]
    · simp [List.filter, (by simpa using h : p a = false), ih]

/-- A keyed lookup that misses means the keyed filter removes nothing. -/
theorem filter_eq_self_of_find?_none (s : List Asset) (id : String)
    (h : s.find? (fun a => a.id == id) = none) :
    s.filter (fun a => !(a.id == id)) = s := by
  induction s with
  | nil => rfl
  | cons a t ih =>
    by_cases ha : (a.id == id) = true
    · simp [List.find?, ha] at h
    · have ha2 : (a.id == id) = false := by simpa using ha
      simp only [List.find?, ha2] at h
      simp [List.filter, ha2, ih h]

/-! ## Claim theorems about the Asset Store -/

/-- C2: for every id with no record in the Asset Store, `updateAsset`
fails with the not-found error; since it fails before any write, it never
creates a record and the store value is unchanged (no new store is
produced). -/
theorem updateAsset_notFound (s : Store) (id : String) (u : AssetUpdates)
    (h : getAsset s id = none) :
    updateAsset s id u =
      .error ("Failed to update asset: Asset with ID " ++ id ++ " not found in IndexedDB") := by
  simp [updateAsset, h]

/-- Witness for `updateAsset_notFound`: updating a missing id on the
singleton store fails with the not-found error. -/
theorem updateAsset_notFound_witness :
    updateAsset [sampleAsset] "missing-id" sampleUpdates =
      .error ("Failed to update asset: Asset with ID " ++ "missing-id" ++ " not found in IndexedDB") :=
  updateAsset_notFound [sampleAsset] "missing-id" sampleUpdates (by decide)

/-- C7: for every existing record, `updateAsset` persists the shallow merge
`{ ...asset, ...updates }`: each field named in the partial update takes the
new value and each unnamed field (`getD` with `none`) keeps the stored
value — including `id`, `createdAt`, `type`, `gpsLocation` and
`sourceWebsite`. -/
theorem updateAsset_merge (s : Store) (id : String) (u : AssetUpdates) (a : Asset)
    (h : getAsset s id = some a) :
    updateAsset s id u = .ok (setAsset s (mergeAsset a u)) ∧
    (mergeAsset a u).id = u.id.getD a.id ∧
    (mergeAsset a u).uri = u.uri.getD a.uri ∧
    (mergeAsset a u).type = u.type.getD a.type ∧
    (mergeAsset a u).mimeType = u.mimeType.getD a.mimeType ∧
    (mergeAsset a u).createdAt = u.createdAt.getD a.createdAt ∧
    (mergeAsset a u).status = u.status.getD a.status ∧
    (mergeAsset a u).metadata = u.metadata.getD a.metadata ∧
    (mergeAsset a u).gpsLocation = u.gpsLocation.getD a.gpsLocation ∧
    (mergeAsset a u).sourceWebsite = u.sourceWebsite.getD a.sourceWebsite :=
  ⟨by simp [updateAsset, h], rfl, rfl, rfl, rfl, rfl, rfl, rfl, rfl, rfl⟩

/-- Witness for `updateAsset_merge`: the sample update names `status` and
`metadata`, which take the new values, while `id` keeps its stored value. -/
theorem updateAsset_merge_witness :
    updateAsset [sampleAsset] "asset-1" sampleUpdates =
      .ok (setAsset [sampleAsset] (mergeAsset sampleAsset sampleUpdates)) ∧
    (mergeAsset sampleAsset sampleUpdates).status = sampleUpdates.status.getD sampleAsset.status ∧
    (mergeAsset sampleAsset sampleUpdates).id = sampleUpdates.id.getD sampleAsset.id :=
  have h := updateAsset_merge [sampleAsset] "asset-1" sampleUpdates sampleAsset (by decide)
  ⟨h.1, h.2.2.2.2.2.2.1, h.2.1⟩

/-- C8: `deleteAsset` succeeds on every store whether or not a record with
the id exists (it is a total function, mirroring that an IndexedDB delete
request fires `onsuccess` even for a key that is absent); deleting twice in
a row produces the same store as deleting once, and deleting a nonexistent
id leaves the store unchanged. -/
theorem deleteAsset_idempotent (s : Store) (id : String) :
    deleteAsset (deleteAsset s id) id = deleteAsset s id ∧
    (getAsset s id = none → deleteAsset s id = s) := by
  refine ⟨?_, ?_⟩
  · exact filter_idem _ s
  · intro h
    exact filter_eq_self_of_find?_none s id h

/-- Witness for `deleteAsset_idempotent`: deleting `asset-1` twice from the
two-element store equals deleting it once, and deleting an id absent from
the store leaves it unchanged. -/
theorem deleteAsset_idempotent_witness :
    deleteAsset (deleteAsset [sampleAsset, sampleAssetB] "asset-1") "asset-1" =
      deleteAsset [sampleAsset, sampleAssetB] "asset-1" ∧
    deleteAsset [sampleAsset, sampleAssetB] "missing-id" = [sampleAsset, sampleAssetB] :=
  ⟨(deleteAsset_idempotent [sampleAsset, sampleAssetB] "asset-1").1,
   (deleteAsset_idempotent [sampleAsset, sampleAssetB] "missing-id").2 (by decide)⟩

/-- C10: for every store already holding a record with the same id,
`setAsset` (the create/insert path, IndexedDB `put`) silently replaces the
existing record: the keyed lookup now returns the new record, the store has
the same number of records (no duplicate is created and no error is
raised), and every record with a different id is untouched. -/
theorem setAsset_upsert (s : Store) (a old : Asset)
    (h : getAsset s a.id = some old) :
    getAsset (setAsset s a) a.id = some a ∧
    (setAsset s a).length = s.length ∧
    (∀ b, b ∈ s → (b.id == a.id) = false → b ∈ setAsset s a) := by
  have hsome : (s.find? (fun b => b.id == a.id)).isSome = true := by
    simp [getAsset] at h
    simp [h]
  have hany : s.any (fun b => b.id == a.id) = true := by
    rcases List.find?_isSome.mp hsome with ⟨x, hx, hpx⟩
    exact List.any_eq_true.mpr ⟨x, hx, hpx⟩
  have hset : setAsset s a = s.map (fun b => if b.id == a.id then a else b) := by
    unfold setAsset
    rw [if_pos hany]
  refine ⟨?_, ?_, ?_⟩
  · rw [getAsset, hset]
    exact find?_map_replace s a hsome
  · rw [hset, List.length_map]
  · intro b hb hbid
    rw [hset]
    exact List.mem_map.mpr ⟨b, hb, by simp [hbid]⟩

/-- Witness for `setAsset_upsert`: putting a replacement record with the id
of `sampleAsset` into the two-element store replaces it, keeps the record
count at two, and leaves `sampleAssetB` in place. -/
theorem setAsset_upsert_witness :
    getAsset (setAsset [sampleAsset, sampleAssetB] sampleAssetReplacement)
        sampleAssetReplacement.id = some sampleAssetReplacement ∧
    (setAsset [sampleAsset, sampleAssetB] sampleAssetReplacement).length =
      ([sampleAsset, sampleAssetB] : Store).length ∧
    sampleAssetB ∈ setAsset [sampleAsset, sampleAssetB] sampleAssetReplacement :=
  have h := setAsset_upsert [sampleAsset, sampleAssetB] sampleAssetReplacement sampleAsset
    (by decide)
  ⟨h.1, h.2.1, h.2.2 sampleAssetB (by decide) (by decide)⟩

/-! ## Header lemmas for the ApiClient -/

/-- `setHeader` with a key other than `Authorization` cannot introduce an
`Authorization` entry. -/
theorem setHeader_keeps_no_auth (hs : List (String × String)) (k v : String)
    (hk : (k == "Authorization") = false)
    (h : hs.find? (fun p => p.1 == "Authorization") = none) :
    (setHeader hs k v).find? (fun p => p.1 == "Authorization") = none := by
  have hall := List.find?_eq_none.mp h
  apply List.find?_eq_none.mpr
  intro q hq
  unfold setHeader at hq
  by_cases hc : hs.any (fun p => p.1 == k) = true
  · rw [if_pos hc] at hq
    rcases List.mem_map.mp hq with ⟨p, hp, hpq⟩
    by_cases hpk : (p.1 == k) = true
    · rw [if_pos hpk] at hpq
      rw [← hpq]
      simp [hk]
    · rw [if_neg hpk] at hpq
      rw [← hpq]
      exact hall p hp
  · rw [if_neg hc] at hq
    rcases List.mem_append.mp hq with hq1 | hq2
    · exact hall q hq1
    · rw [List.mem_singleton.mp hq2]
      simp [hk]

/-- Spreading custom headers that carry no `Authorization` key over a base
object without one yields an object without one. -/
theorem foldl_setHeader_keeps_no_auth (custom : List (String × String))
    (hs : List (String × String))
    (hc : custom.all (fun p => !(p.1 == "Authorization")) = true)
    (h : hs.find? (fun p => p.1 == "Authorization") = none) :
    (custom.foldl (fun a kv => setHeader a kv.1 kv.2) hs).find?
      (fun p => p.1 == "Authorization") = none := by
  induction custom generalizing hs with
  | nil => exact h
  | cons kv rest ih =>
    rw [List.foldl_cons]
    simp only [List.all_cons, Bool.and_eq_true, Bool.not_eq_true'] at hc
    exact ih _ hc.2 (setHeader_keeps_no_auth hs kv.1 kv.2 hc.1 h)

/-! ## Claim theorems about the ApiClient -/

/-- C3 (counterexample): with no auth token present, an authenticated
request does not fail locally — `requestWithAuth` still dispatches a
request to the remote service (the result is `some` sent request, not the
`none` that a fail-locally behaviour would produce), and the sent headers
simply lack the `Authorization` entry. -/
theorem requestWithAuth_no_token_counterexample :
    requestWithAuthSends none [] ≠ none ∧
    lookupHeader (buildAuthHeaders none []) "Authorization" = none := by
  decide

/-- C3 (amended): for every authenticated request issued while no auth
token is present (and whose caller-supplied headers do not themselves carry
an `Authorization` key), the request is still sent to the remote service,
with headers that contain no `Authorization` entry; no local failure
occurs. -/
theorem requestWithAuth_no_token_sent (custom : List (String × String))
    (hc : custom.all (fun p => !(p.1 == "Authorization")) = true) :
    requestWithAuthSends none custom = some ⟨buildAuthHeaders none custom⟩ ∧
    lookupHeader (buildAuthHeaders none custom) "Authorization" = none := by
  refine ⟨rfl, ?_⟩
  have hnone := foldl_setHeader_keeps_no_auth custom
    [("Content-Type", "application/json")] hc (by decide)
  show ((custom.foldl (fun a kv => setHeader a kv.1 kv.2)
      [("Content-Type", "application/json")]).find?
      (fun p => p.1 == "Authorization")).map (fun p => p.2) = none
  rw [hnone]
  rfl

/-- Witness for `requestWithAuth_no_token_sent`: one custom header, no
token: the request is dispatched and its headers have no `Authorization`. -/
theorem requestWithAuth_no_token_sent_witness :
    requestWithAuthSends none [("X-Custom", "1")] =
      some ⟨buildAuthHeaders none [("X-Custom", "1")]⟩ ∧
    lookupHeader (buildAuthHeaders none [("X-Custom", "1")]) "Authorization" = none :=
  requestWithAuth_no_token_sent [("X-Custom", "1")] (by decide)

/-- C9: every failure of `ApiClient.request` surfaces as an `ApiError`: a
non-ok HTTP response keeps its HTTP status as `statusCode`; the timeout
abort yields message `'Request timeout'` with `statusCode` 408; any other
transport failure yields `statusCode` 0 with a body of type
`'network_error'`.  Consequently the timeout error fails the
`statusCode === 0` network test but matches the `'timeout'`
message-substring test. -/
theorem request_error_classification :
    (∀ status statusText errJson, respOk status = false →
      errorStatusOf (request (.resp status statusText errJson)) = some status) ∧
    request .abort = .error ⟨"Request timeout", 408, none⟩ ∧
    (∀ m, errorStatusOf (request (.netFail m)) = some 0 ∧
      errorNetTypeOf (request (.netFail m)) = some "network_error") ∧
    ((⟨"Request timeout", 408, none⟩ : ApiError).statusCode == 0) = false ∧
    containsSub (⟨"Request timeout", 408, none⟩ : ApiError).message "timeout" = true := by
  refine ⟨?_, rfl, ?_, by decide, by decide⟩
  · intro status statusText errJson h
    simp [request, h, errorStatusOf]
  · intro m
    exact ⟨rfl, rfl⟩

/-- Witness for `request_error_classification`: a 503 response surfaces
with `statusCode` 503, and a transport failure surfaces with `statusCode` 0
and a `network_error` body. -/
theorem request_error_classification_witness :
    errorStatusOf (request (.resp 503 "Service Unavailable" none)) = some 503 ∧
    errorStatusOf (request (.netFail (some "fetch failed"))) = some 0 ∧
    errorNetTypeOf (request (.netFail (some "fetch failed"))) = some "network_error" :=
  ⟨request_error_classification.1 503 "Service Unavailable" none (by decide),
   (request_error_classification.2.2.1 (some "fetch failed")).1,
   (request_error_classification.2.2.1 (some "fetch failed")).2⟩

/-! ## Claim theorems about the Session Manager -/

/-- C1: for every stored credential, after `initialize` restores the token
and validates it, a validation failure classified as a network error or a
server error (5xx) keeps the token installed and the last-known cached
profile stored (the session remains authenticated), while any other
validation error clears the credential entirely (both the client token and
the persisted record). -/
theorem initializeSession_classification (st : SessionState) (auth : StoredAuth)
    (h : st.storedAuth = some auth) :
    (∀ msg code,
      ((isNetworkError msg (some code) || isServerError (some code)) = true →
        initializeSession st (.apiErr msg code) = { st with clientToken := some auth.token }) ∧
      ((isNetworkError msg (some code) || isServerError (some code)) = false →
        initializeSession st (.apiErr msg code) = ⟨none, none⟩)) ∧
    (∀ msg,
      (isNetworkError msg none = true →
        initializeSession st (.otherErr msg) = { st with clientToken := some auth.token }) ∧
      (isNetworkError msg none = false →
        initializeSession st (.otherErr msg) = ⟨none, none⟩)) := by
  constructor
  · intro msg code
    constructor
    · intro hkeep
      simp only [initializeSession, h]
      rw [if_pos hkeep]
    · intro hclear
      simp only [initializeSession, h]
      rw [if_neg (by simp [hclear])]
  · intro msg
    constructor
    · intro hkeep
      simp only [initializeSession, h]
      rw [if_pos (by simp [isServerError, hkeep])]
    · intro hclear
      simp only [initializeSession, h]
      rw [if_neg (by simp [isServerError, hclear])]

/-- Witness for `initializeSession_classification`: with the credential
`tok` stored, a validation timeout (`ApiError('Request timeout', 408)`)
keeps the token and the cached profile, while a 401 `Invalid token` error
clears the credential entirely. -/
theorem initializeSession_classification_witness :
    initializeSession ⟨some ⟨"tok", "user@example.com", "user"⟩, none⟩
        (.apiErr "Request timeout" 408) =
      { storedAuth := some ⟨"tok", "user@example.com", "user"⟩, clientToken := some "tok" } ∧
    initializeSession ⟨some ⟨"tok", "user@example.com", "user"⟩, none⟩
        (.apiErr "Invalid token" 401) = ⟨none, none⟩ :=
  have h := initializeSession_classification
    ⟨some ⟨"tok", "user@example.com", "user"⟩, none⟩ ⟨"tok", "user@example.com", "user"⟩ rfl
  ⟨(h.1 "Request timeout" 408).1 (by decide),
   (h.1 "Invalid token" 401).2 (by decide)⟩

/-! ## Claim theorems about the Image Composer -/

/-- C4: two-run determinism of the composition.  For a fixed environment
(measurement, date parsing, image loads) and a fixed payload (image,
timestamp, watermark spec), two composition runs — even starting from
arbitrary, different leftover states of the shared canvas context — produce
identical results: the same timestamp text, the same font strings, the same
box position and dimensions, and the same logo placement, because assigning
the canvas dimensions resets the context state before anything is drawn. -/
theorem addWatermark_deterministic (env : Env) (p : Payload) (c1 c2 : Ctx) :
    addWatermark env p (some c1) = addWatermark env p (some c2) :=
  rfl

/-- C5: if the canvas 2D context cannot be acquired, composition fails with
an error (never returning the unwatermarked image); and if only the logo
load fails while the captured image loads, composition still succeeds with
the logo omitted from the drawing trace while the timestamp text draws
remain (whenever the timestamp was not disabled). -/
theorem addWatermark_failure_modes (env : Env) (p : Payload) :
    addWatermark env p none = .error "Failed to get canvas context" ∧
    (∀ c : Ctx, env.logoOk = false → env.mainImageOk = true →
      (addWatermark env p (some c)).isOk = true ∧
      hasLogoCmd (traceOf (addWatermark env p (some c))) = false ∧
      (p.includeTimestamp ≠ some false →
        hasTextCmd (traceOf (addWatermark env p (some c))) = true)) := by
  refine ⟨rfl, ?_⟩
  intro c hlogo hmain
  by_cases hts : p.includeTimestamp = some false
  · refine ⟨?_, ?_, fun hne => absurd hts hne⟩
    · simp [addWatermark, hmain, hts, drawLogo, hlogo, Except.isOk, Except.toBool]
    · simp [addWatermark, hmain, hts, drawLogo, hlogo, traceOf, hasLogoCmd, resetCtx]
  · refine ⟨?_, ?_, fun _ => ?_⟩
    · simp [addWatermark, hmain, hts, drawLogo, hlogo, Except.isOk, Except.toBool]
    · simp [addWatermark, hmain, hts, drawLogo, hlogo, traceOf, drawTimestamp, hasLogoCmd,
        resetCtx]
    · simp [addWatermark, hmain, hts, drawLogo, hlogo, traceOf, drawTimestamp, hasTextCmd,
        resetCtx]

/-- A sample composition environment whose logo load fails. -/
def sampleEnvLogoFail : Env where
  measure := fun _ _ => 120
  parseDate := fun _ => ⟨12, 30, 5, 3, 2024, "Fri"⟩
  mainImageOk := true
  logoOk := false

/-- A sample composition environment whose image loads all succeed. -/
def sampleEnvLogoOk : Env where
  measure := fun _ _ => 120
  parseDate := fun _ => ⟨12, 30, 5, 3, 2024, "Fri"⟩
  mainImageOk := true
  logoOk := true

/-- A sample `ADD_WATERMARK` payload for a 1280×800 capture. -/
def samplePayload : Payload where
  dataUrl := "data:image/png;base64,AAAA"
  timestamp := "2024-04-05T12:30:00"
  width := 1280
  height := 800
  timestampSize := none
  includeTimestamp := none

/-- A sample canvas context state (as left behind by a previous run). -/
def sampleCtx : Ctx := resetCtx 1280 800

/-- Witness for `addWatermark_failure_modes`: with a failing logo load and
a successful image load, the sample composition succeeds, draws no logo,
and draws the timestamp text. -/
theorem addWatermark_failure_modes_witness :
    (addWatermark sampleEnvLogoFail samplePayload (some sampleCtx)).isOk = true ∧
    hasLogoCmd (traceOf (addWatermark sampleEnvLogoFail samplePayload (some sampleCtx))) = false ∧
    hasTextCmd (traceOf (addWatermark sampleEnvLogoFail samplePayload (some sampleCtx))) = true :=
  have h := (addWatermark_failure_modes sampleEnvLogoFail samplePayload).2 sampleCtx rfl rfl
  ⟨h.1, h.2.1, h.2.2 (by decide)⟩

/-- C6: whenever the logo loads, `drawLogo` draws it with width
`max(100, ⌊W / 12⌋)` pixels, height equal to that width times the fixed
aspect ratio `157 / 828`, positioned inset 20 pixels from the right edge
(`x = W - width - 20`) and 20 pixels from the bottom edge
(`y = H - height - 20`), and rendered at 70% opacity. -/
theorem drawLogo_layout (env : Env) (ctx : Ctx) (h : env.logoOk = true) :
    drawLogo env ctx =
      { ctx with
        globalAlpha := 1
        trace := ctx.trace ++ [DrawCmd.logo
          ((ctx.canvasWidth : ℚ) - ((max 100 (ctx.canvasWidth / 12) : Nat) : ℚ) - 20)
          ((ctx.canvasHeight : ℚ) - ((max 100 (ctx.canvasWidth / 12) : Nat) : ℚ) * (157 / 828) - 20)
          ((max 100 (ctx.canvasWidth / 12) : Nat) : ℚ)
          (((max 100 (ctx.canvasWidth / 12) : Nat) : ℚ) * (157 / 828))
          (7 / 10)] } := by
  unfold drawLogo
  rw [if_pos h]

/-- Witness for `drawLogo_layout`: on the 1280×800 sample canvas the logo
command is `max(100, ⌊1280/12⌋) = 106` pixels wide, `106 × 157/828` high,
inset 20px from the right and bottom edges, at 70% opacity. -/
theorem drawLogo_layout_witness :
    drawLogo sampleEnvLogoOk sampleCtx =
      { sampleCtx with
        globalAlpha := 1
        trace := sampleCtx.trace ++ [DrawCmd.logo
          ((sampleCtx.canvasWidth : ℚ) - ((max 100 (sampleCtx.canvasWidth / 12) : Nat) : ℚ) - 20)
          ((sampleCtx.canvasHeight : ℚ) -
            ((max 100 (sampleCtx.canvasWidth / 12) : Nat) : ℚ) * (157 / 828) - 20)
          ((max 100 (sampleCtx.canvasWidth / 12) : Nat) : ℚ)
          (((max 100 (sampleCtx.canvasWidth / 12) : Nat) : ℚ) * (157 / 828))
          (7 / 10)] } :=
  drawLogo_layout sampleEnvLogoOk sampleCtx rfl

end ProofSnap
